import Mathlib

/-!
Verification development for the CasADi qpOASES QP-solver interface
(`src/casadi/interfaces/qpoases/qpoases_interface.cpp`).

The C++ source is shallowly embedded:

* machine doubles that the interface merely copies, negates or forwards are
  represented by `Int` (none of the verified properties depend on real
  arithmetic, only on which values are moved where);
* the qpOASES backend itself is external to the repository; a backend call is
  represented by a `BackendResult` parameter (the status flag and the vectors
  the backend would report via `getObjVal`, `getPrimalSolution`,
  `getDualSolution`), and the embedding records which backend entry point was
  invoked and with which data in a `BackendInvocation`;
* the qpOASES `returnValue` enumeration is external as well; its members are
  modelled as distinct `Int` codes numbered in the order of the `switch` in
  `QpoasesInterface::getErrorMessage`;
* C++ exceptions (`CasadiException`, `casadi_error`) are modelled as
  `Except`/`Option` error results;
* null input/output pointers are modelled as `none`.
-/

set_option maxRecDepth 4000

namespace casadi

/-! ## Option-enum string conversions (lines 565-629 of the source) -/

/-- The qpOASES `PrintLevel` enumeration (external backend type).
`PL_DEBUG_ITER` is the member not handled by the interface's conversion
(the `default:` branch of the `switch`). -/
inductive PrintLevel where
  | PL_DEBUG_ITER
  | PL_TABULAR
  | PL_NONE
  | PL_LOW
  | PL_MEDIUM
  | PL_HIGH
deriving DecidableEq

/-- The qpOASES `BooleanType` enumeration (external backend type). -/
inductive BooleanType where
  | BT_FALSE
  | BT_TRUE
deriving DecidableEq

/-- Embedding of `QpoasesInterface::PrintLevel_to_string` (lines 604-613).
The `default: casadi_error(...)` branch is modelled as `none`. -/
def PrintLevel_to_string : PrintLevel → Option String
  | .PL_TABULAR => some "tabular"
  | .PL_NONE    => some "none"
  | .PL_LOW     => some "low"
  | .PL_MEDIUM  => some "medium"
  | .PL_HIGH    => some "high"
  | .PL_DEBUG_ITER => none

/-- Embedding of `QpoasesInterface::string_to_PrintLevel` (lines 615-629).
The final `casadi_error("not_implemented")` branch is modelled as `none`. -/
def string_to_PrintLevel (b : String) : Option PrintLevel :=
  if b = "tabular" then some .PL_TABULAR
  else if b = "none" then some .PL_NONE
  else if b = "low" then some .PL_LOW
  else if b = "medium" then some .PL_MEDIUM
  else if b = "high" then some .PL_HIGH
  else none

/-- Embedding of `QpoasesInterface::BooleanType_to_bool` (lines 565-571). -/
def BooleanType_to_bool : BooleanType → Bool
  | .BT_TRUE  => true
  | .BT_FALSE => false

/-- Embedding of `QpoasesInterface::bool_to_BooleanType` (lines 573-575). -/
def bool_to_BooleanType (b : Bool) : BooleanType :=
  if b then .BT_TRUE else .BT_FALSE

/-! ## The error mapper (lines 284-563 of the source) -/

/-- The `case` arms of the `switch` in `QpoasesInterface::getErrorMessage`,
in source order.  The qpOASES `returnValue` codes are external to the
repository; they are modelled as distinct integers numbered in the order the
`switch` handles them, starting from `SUCCESSFUL_RETURN = 0`. -/
def retMessages : List (Int × String) :=
  [ (0, "Successful return."),
    (1, "Division by zero."),
    (2, "Index out of bounds."),
    (3, "At least one of the arguments is invalid."),
    (4, "Error number undefined."),
    (5, "Warning number undefined."),
    (6, "Info number undefined."),
    (7, "Error/warning/info number undefined."),
    (8, "This function is available under Linux only."),
    (9, "The error occured is not yet known."),
    (10, "Print level changed."),
    (11, "Requested function is not yet implemented in this version of qpOASES."),
    (12, "Index list has to be reordered."),
    (13, "Index list exceeds its maximal physical length."),
    (14, "Index list corrupted."),
    (15, "Physical index is out of bounds."),
    (16, "Adding indices from another index set failed."),
    (17, "Intersection with another index set failed."),
    (18, "Index is already of desired status."),
    (19, "Adding index to index set failed."),
    (20, "Removing index from index set failed."),
    (21, "Cannot swap between different indexsets."),
    (22, "Nothing to do."),
    (23, "Setting up bound index failed."),
    (24, "Setting up constraint index failed."),
    (25, "Moving bound between index sets failed."),
    (26, "Moving constraint between index sets failed."),
    (27, "Shifting of bounds/constraints failed."),
    (28, "Rotating of bounds/constraints failed."),
    (29, "The QP object has not been setup correctly, use another constructor."),
    (30, "QProblem has already been initialized."),
    (31, "Initialisation via extern QP solver is not yet implemented."),
    (32, "Reset failed."),
    (33, "Initialisation failed."),
    (34, "Initialisation failed due to TQ factorisation."),
    (35, "Initialisation failed due to Cholesky decomposition."),
    (36, "Initialisation failed! QP could not be solved!"),
    (37, "Initial QP could not be solved due to infeasibility!"),
    (38, "Initial QP could not be solved due to unboundedness!"),
    (39, "Initialisation done."),
    (40, "Failed to obtain working set for auxiliary QP."),
    (41, "Failed to setup working set for auxiliary QP."),
    (42, "Failed to setup auxiliary QP for initialized homotopy."),
    (43, "No extern QP solver available."),
    (44, "QP is unbounded."),
    (45, "QP is infeasible."),
    (46, "Problems occured while solving QP with standard solver."),
    (47, "QP successfully solved."),
    (48, "Problems occured while solving QP."),
    (49, "Starting problem initialisation."),
    (50, "Unable to perform homotopy due to internal error."),
    (51, "Unable to initialise problem."),
    (52, "Unable to perform homotopy as previous QP is not solved."),
    (53, "Iteration..."),
    (54, "Determination of shift of the QP data failed."),
    (55, "Determination of step direction failed."),
    (56, "Determination of step direction failed."),
    (57, "Optimal solution of neighbouring QP found."),
    (58, "Unable to perform homotopy step."),
    (59, "Premature homotopy termination because QP is infeasible."),
    (60, "Premature homotopy termination because QP is unbounded."),
    (61, "Unable to update working sets according to initial guesses."),
    (62, "Maximum number of working set recalculations performed."),
    (63, "Problem does comprise constraints! You also have to specify new constraints\x27 bounds."),
    (64, "Invalid factorisation flag."),
    (65, "Unable to save QP data."),
    (66, "Abnormal termination due to TQ factorisation."),
    (67, "Abnormal termination due to Cholesky factorisation."),
    (68, "Cycling detected."),
    (69, "Cycling cannot be resolved, QP probably infeasible."),
    (70, "Cycling probably resolved."),
    (71, "For displaying performed stepsize."),
    (72, "For displaying non-positive stepsize."),
    (73, "Setup of SubjectToTypes failed."),
    (74, "Addition of constraint to working set failed."),
    (75, "Addition of constraint to working set failed (due to QP infeasibility)."),
    (76, "Addition of bound to working set failed."),
    (77, "Addition of bound to working set failed (due to QP infeasibility)."),
    (78, "Removal of constraint from working set failed."),
    (79, "Removal of bound from working set failed."),
    (80, "Removing from active set..."),
    (81, "Adding to active set..."),
    (82, "Removing from active set failed."),
    (83, "Adding to active set failed."),
    (84, "Constraint is already active."),
    (85, "All constraints are active, no further constraint can be added."),
    (86, "New bound/constraint is linearly dependent."),
    (87, "New bound/constraint is linearly independent."),
    (88, "Linear indepence of active contraint matrix successfully resolved."),
    (89, "Failed to ensure linear indepence of active contraint matrix."),
    (90, "Abnormal termination due to TQ factorisation."),
    (91, "QP is infeasible."),
    (92, "QP is infeasible."),
    (93, "Bound is already active."),
    (94, "All bounds are active, no further bound can be added."),
    (95, "Constraint is not active."),
    (96, "Bound is not active."),
    (97, "Projected Hessian matrix not positive definite."),
    (98, "Hessian matrix is indefinite."),
    (99, "Unable to update matrices or to transform vectors."),
    (100, "Unable to calculate new matrix factorisations."),
    (101, "Unable to print information on current iteration."),
    (102, "No global message output file initialized."),
    (103, "Unable to disbable constraints."),
    (104, "Unable to enbable constraints."),
    (105, "Bound or constraint is already enabled."),
    (106, "Bound or constraint is already disabled."),
    (107, "No Hessian matrix has been specified."),
    (108, "Using regularisation as Hessian matrix is not positive definite."),
    (109, "Eps for regularisation must be sufficiently positive."),
    (110, "Maximum number of regularisation steps must be non-negative."),
    (111, "Hessian has been already regularised."),
    (112, "Identity Hessian matrix cannot be regularised."),
    (113, "No additional regularisation step could be performed due to limits."),
    (114, "Fewer additional regularisation steps have been performed due to limits."),
    (115, "Cholesky decomposition of (unregularised) zero Hessian matrix."),
    (116, "When defining __MANY_CONSTRAINTS__, l1 norm of each constraint must be not greater than one."),
    (117, "Error in user-defined constraint product function."),
    (118, "Unable to update QP matrices."),
    (119, "Unable to update matrices as previous QP is not solved."),
    (120, "Unable to open file."),
    (121, "Unable to write into file."),
    (122, "Unable to read from file."),
    (123, "File contains inconsistent data."),
    (124, "Unable to analyse (S)QProblem(B) object"),
    (125, "Maximum number of working set changes was set to 1."),
    (126, "Benchmark aborted."),
    (127, "Unable to read benchmark data."),
    (128, "Initial QP solved."),
    (129, "Solving QP..."),
    (130, "Benchmark terminated successfully.") ]

/-- The modelled code of `qpOASES::SUCCESSFUL_RETURN`. -/
def SUCCESSFUL_RETURN : Int := 0

/-- The modelled code of `qpOASES::RET_MAX_NWSR_REACHED`
(position of its `case` arm in the `switch` of `getErrorMessage`). -/
def RET_MAX_NWSR_REACHED : Int := 62

/-- First-match lookup in an association list; the embedding of a C++
`switch` over integer codes. -/
def lookupMsg : List (Int × String) → Int → Option String
  | [], _ => none
  | (k, s) :: rest, flag => if flag = k then some s else lookupMsg rest flag

/-- Embedding of `QpoasesInterface::getErrorMessage` (lines 284-563): a
`switch` over every handled qpOASES code, with a default branch that embeds
the raw numeric flag into the returned message. -/
def getErrorMessage (flag : Int) : String :=
  match lookupMsg retMessages flag with
  | some s => s
  | none => "Unknown error flag: " ++ toString flag ++ ". Consult qpOASES documentation."

/-! ## Workspace sizing (lines 153-161 and 220-243 of the source) -/

/-- The sequence of `alloc_w` requests issued by `QpoasesInterface::init`
(lines 153-161): dense Hessian `h`, dense constraint matrix `a`, gradient
`g`, variable bounds `lbx`/`ubx`, constraint bounds `lba`/`uba`, and the
dual vector, for `n` variables and `nc` constraints. -/
def alloc_w_sizes (n nc : Nat) : List Nat :=
  [n * n, n * nc, n, n, n, nc, nc, n + nc]

/-- Total number of doubles of scratch the instance allocates. -/
def workspaceSize (n nc : Nat) : Nat :=
  (alloc_w_sizes n nc).sum

/-- The sequence of slots `QpoasesInterface::eval` carves out of the
preallocated work vector `w` by pointer bumps (lines 220-243, and the dual
slot at line 276, carved only when a dual output is requested). -/
def evalCarveSizes (n nc : Nat) (wantDual : Bool) : List Nat :=
  [n * n, n * nc, n, n, n, nc, nc] ++ (if wantDual then [n + nc] else [])

/-! ## Data marshaling helpers (casadi runtime functions used by `eval`) -/

/-- Embedding of `casadi_copy(x, k, y)` writing into a (non-null) workspace
slot of `k` doubles: copy `k` entries of `x`, or zero-fill when `x` is a
null pointer. -/
def casadi_copy (x : Option (List Int)) (k : Nat) : List Int :=
  match x with
  | some v => v.take k
  | none => List.replicate k 0

/-- Embedding of `casadi_densify` writing a matrix into a dense workspace
slot of `k` doubles.  The engine's sparse storage is abstracted away: the
matrix argument is represented directly by its dense expansion (the
transpose flag affects only the element order inside the slot, which none of
the verified properties inspect). -/
def casadi_densify (x : Option (List Int)) (k : Nat) : List Int :=
  casadi_copy x k

/-- Embedding of `casadi_scal(k, -1., x)`: scale the first `k` entries of a
workspace slot by `-1`. -/
def casadi_scal (k : Nat) (x : List Int) : List Int :=
  (x.take k).map (fun v => -v) ++ x.drop k

/-- Componentwise `lower ≤ upper` over two bound vectors. -/
def boundsLe (lo hi : List Int) : Bool :=
  (lo.zip hi).all fun p => decide (p.1 ≤ p.2)

/-- Modelled from the spec: the base-class `Qpsol::checkInputs` called at
line 217 is not under `src/`; per the spec it performs the componentwise
`lowerBound ≤ upperBound` check on the variable and constraint bounds and
raises a `ConfigurationError` on violation, before any backend call.  Null
(absent) bound inputs are materialized as zero vectors, as in
`casadi_copy`. -/
def checkInputs (n nc : Nat) (lbx ubx lba uba : Option (List Int)) :
    Except String Unit :=
  if boundsLe (casadi_copy lbx n) (casadi_copy ubx n)
      && boundsLe (casadi_copy lba nc) (casadi_copy uba nc) then
    Except.ok ()
  else
    Except.error "ConfigurationError: lower bound exceeds upper bound"

/-! ## The solve entry point `QpoasesInterface::eval` (lines 212-282) -/

/-- The input slots of one solve call, i.e. the `arg` array of `eval`
(QPSOL scheme): Hessian, gradient, constraint matrix, variable bounds,
constraint bounds.  A null pointer is `none`.  Note that the argument list
carries only problem data: it has no iteration- or time-budget slot. -/
structure QpArgs where
  h   : Option (List Int)
  g   : Option (List Int)
  a   : Option (List Int)
  lbx : Option (List Int)
  ubx : Option (List Int)
  lba : Option (List Int)
  uba : Option (List Int)
deriving DecidableEq

/-- Which qpOASES entry point a solve call invokes:
`QProblemB::init` (cold, bounds-only problem), `SQProblem::init` (cold,
constrained problem), `QProblemB::reset()` followed by `QProblemB::init`
(cold re-initialization, lines 256-257), or `SQProblem::hotstart` (warm
restart, line 260). -/
inductive BackendCall where
  | initB
  | initS
  | resetInitB
  | hotstartS
deriving DecidableEq

/-- Whether a backend entry point reuses cached backend-native state (a warm
restart).  `reset()` followed by `init(...)` discards the cached state, so
it is a cold initialization. -/
def BackendCall.isWarm : BackendCall → Bool
  | .hotstartS => true
  | _ => false

/-- A record of one call into the qpOASES backend: the entry point and the
data and budgets passed to it.  `cputime = none` models the null
`cputime_ptr` (line 231: the CPU-time budget is disabled when
`max_cputime_ <= 0`). -/
structure BackendInvocation where
  call : BackendCall
  h    : List Int
  g    : List Int
  a    : List Int
  lb   : List Int
  ub   : List Int
  lbA  : List Int
  ubA  : List Int
  nWSR : Int
  cputime : Option Int
deriving DecidableEq

/-- What the external qpOASES backend reports for one call: the return flag
and the values retrievable through `getObjVal`, `getPrimalSolution` and
`getDualSolution`. -/
structure BackendResult where
  flag   : Int
  objVal : Int
  primal : List Int
  dual   : List Int
deriving DecidableEq

/-- The caller-visible output slots (the `res` array of `eval`): cost,
primal solution, and the two multiplier vectors.  `none` models a slot the
caller has not written yet. -/
structure QpRes where
  cost  : Option Int
  x     : Option (List Int)
  lam_x : Option (List Int)
  lam_a : Option (List Int)
deriving DecidableEq

/-- Which output slots the caller requested (non-null `res` pointers). -/
structure ResReq where
  cost  : Bool
  x     : Bool
  lam_x : Bool
  lam_a : Bool
deriving DecidableEq

/-- The per-instance (`QpoasesInterface`) state established by `init`
(lines 135-162): problem dimensions, the `inputs_check_` option of the base
class, and the budgets `max_nWSR_` and `max_cputime_` resolved from the
options. -/
structure QpoasesInterfaceState where
  n  : Nat
  nc : Nat
  inputs_check : Bool
  max_nWSR     : Int
  max_cputime  : Int
deriving DecidableEq

/-- The per-memory (`QpoasesMemory`) hot-start state: has any solve run on
this memory object. -/
structure QpoasesMemory where
  called_once : Bool
deriving DecidableEq

/-- Embedding of `QpoasesInterface::init_memory` (lines 164-166, state
machine part): freshly initialized memory has `called_once = false` (and a
newly constructed backend object, which the embedding keeps external). -/
def init_memory (_m : QpoasesMemory) : QpoasesMemory :=
  { called_once := false }

/-- Embedding of the option reading in `QpoasesInterface::init`
(lines 138-151): `max_nWSR_` is the `nWSR` option when set (asserted
nonnegative) and `5*(n + nc)` otherwise; `max_cputime_` is the `CPUtime`
option when set (asserted positive) and `-1` (disabled) otherwise.  A
failed `casadi_assert` is modelled as `none`. -/
def QpoasesInterface.init (n nc : Nat) (inputs_check : Bool)
    (nWSR_opt : Option Int) (cputime_opt : Option Int) :
    Option QpoasesInterfaceState :=
  let m1 : Option Int :=
    match nWSR_opt with
    | some v => if 0 ≤ v then some v else none
    | none => some (5 * ((n : Int) + (nc : Int)))
  let m2 : Option Int :=
    match cputime_opt with
    | some v => if 0 < v then some v else none
    | none => some (-1)
  match m1, m2 with
  | some a, some b => some ⟨n, nc, inputs_check, a, b⟩
  | _, _ => none

/-- The outcome of one `eval` call: the memory's `called_once` flag after
the call, the backend invocation performed (if any), the exception thrown
(if any), and the final contents of the caller's output slots. -/
structure EvalResult where
  called_once : Bool
  invocation  : Option BackendInvocation
  err : Option String
  res : QpRes
deriving DecidableEq

/-- Embedding of the body of `QpoasesInterface::eval` after the input check
has passed (lines 220-282): marshal the data into workspace slots, invoke
the backend entry point selected by the hot-start state, classify the
return flag, and write the requested outputs. -/
def QpoasesInterface.evalChecked (st : QpoasesInterfaceState)
    (called_once : Bool) (args : QpArgs) (req : ResReq)
    (backend : BackendResult) (res0 : QpRes) : EvalResult :=
  let n := st.n
  let nc := st.nc
  let h := casadi_densify args.h (n * n)
    let a := casadi_densify args.a (n * nc)
    let nWSR := st.max_nWSR
    let cputime_ptr : Option Int :=
      if st.max_cputime ≤ 0 then none else some st.max_cputime
    let g := casadi_copy args.g n
    let lb := casadi_copy args.lbx n
    let ub := casadi_copy args.ubx n
    let lbA := casadi_copy args.lba nc
    let ubA := casadi_copy args.uba nc
    let call : BackendCall :=
      if called_once = false then
        if nc = 0 then .initB else .initS
      else
        if nc = 0 then .resetInitB else .hotstartS
    let inv : BackendInvocation :=
      { call := call, h := h, g := g, a := a, lb := lb, ub := ub,
        lbA := lbA, ubA := ubA, nWSR := nWSR, cputime := cputime_ptr }
    if backend.flag ≠ SUCCESSFUL_RETURN ∧ backend.flag ≠ RET_MAX_NWSR_REACHED then
      { called_once := true, invocation := some inv,
        err := some ("qpOASES failed: " ++ getErrorMessage backend.flag),
        res := res0 }
    else
      let dual := casadi_scal (n + nc) backend.dual
      { called_once := true
        invocation := some inv
        err := none
        res :=
          { cost := if req.cost then some backend.objVal else res0.cost
            x := if req.x then some (backend.primal.take n) else res0.x
            lam_x := if req.lam_x || req.lam_a then
                       (if req.lam_x then some (dual.take n) else res0.lam_x)
                     else res0.lam_x
            lam_a := if req.lam_x || req.lam_a then
                       (if req.lam_a then some ((dual.drop n).take nc) else res0.lam_a)
                     else res0.lam_a } }

/-- Embedding of `QpoasesInterface::eval` (lines 212-282).  The call is
parameterized by the interface state, the memory's `called_once` flag, the
input and requested-output slots, the external backend's behaviour for this
call, and the prior contents `res0` of the output slots (so that "slot left
untouched" is expressible).  The input check (lines 216-218) runs only when
the `inputs_check_` option is on; a thrown `ConfigurationError` skips the
whole body. -/
def QpoasesInterface.eval (st : QpoasesInterfaceState) (called_once : Bool)
    (args : QpArgs) (req : ResReq) (backend : BackendResult) (res0 : QpRes) :
    EvalResult :=
  match if st.inputs_check then
          checkInputs st.n st.nc args.lbx args.ubx args.lba args.uba
        else Except.ok () with
  | Except.error e =>
    { called_once := called_once, invocation := none, err := some e, res := res0 }
  | Except.ok _ =>
    QpoasesInterface.evalChecked st called_once args req backend res0

/-! ## Concrete instances used by witnesses and counterexamples -/

/-- A bounds-only (`nc = 0`) one-variable instance with input checking on,
as produced by `init 1 0 true none none`. -/
def exSt : QpoasesInterfaceState := ⟨1, 0, true, 5, -1⟩

/-- The same shape with input checking disabled. -/
def exStNoCheck : QpoasesInterfaceState := ⟨1, 0, false, 5, -1⟩

/-- A constrained (`nc = 1`) instance. -/
def exStNc1 : QpoasesInterfaceState := ⟨1, 1, true, 10, -1⟩

/-- A one-variable instance with the `nWSR` option set to `7`. -/
def exSt7 : QpoasesInterfaceState := ⟨1, 0, true, 7, -1⟩

/-- A one-variable instance with the `nWSR` option set to `9`. -/
def exSt9 : QpoasesInterfaceState := ⟨1, 0, true, 9, -1⟩

/-- Well-formed solve inputs for one variable: minimize `x*x - 4x` on
`[-10, 10]`. -/
def exArgs1 : QpArgs :=
  ⟨some [2], some [-4], none, some [-10], some [10], none, none⟩

/-- The same inputs with a different gradient (a second call's data). -/
def exArgs2 : QpArgs :=
  ⟨some [2], some [-6], none, some [-10], some [10], none, none⟩

/-- Malformed solve inputs: `lbx[0] = 5 > 0 = ubx[0]`. -/
def exArgsBad : QpArgs :=
  ⟨some [2], some [-4], none, some [5], some [0], none, none⟩

/-- Well-formed inputs for the constrained one-variable instance. -/
def exArgsNc1 : QpArgs :=
  ⟨some [2], some [-4], some [1], some [-10], some [10], some [0], some [4]⟩

/-- All four output slots requested. -/
def exReqAll : ResReq := ⟨true, true, true, true⟩

/-- Output slots before the call: nothing written yet. -/
def exRes0 : QpRes := ⟨none, none, none, none⟩

/-- A backend run that returns `SUCCESSFUL_RETURN` with solution data. -/
def exBackendOk : BackendResult := ⟨0, -4, [2], [3]⟩

/-- A backend run for the constrained instance (dual of length `n + nc`). -/
def exBackendOkNc1 : BackendResult := ⟨0, -4, [2], [3, 5]⟩

/-- A backend run that exhausts the working-set budget
(`RET_MAX_NWSR_REACHED`) holding a best-so-far iterate. -/
def exBackendMax : BackendResult := ⟨62, -3, [1], [2]⟩

/-- A backend run that fails hard (`RET_QP_INFEASIBLE`, code 45). -/
def exBackendFail : BackendResult := ⟨45, 0, [0], [0]⟩


/-! ## Helper lemmas -/

lemma lookupMsg_mem (l : List (Int × String)) (flag : Int) (s : String)
    (h : lookupMsg l flag = some s) : (flag, s) ∈ l := by
  induction l with
  | nil => simp [lookupMsg] at h
  | cons p rest ih =>
    obtain ⟨k, msg⟩ := p
    unfold lookupMsg at h
    split at h
    · next heq =>
      cases h
      subst heq
      exact List.mem_cons_self _ _
    · exact List.mem_cons_of_mem _ (ih h)

lemma lookupMsg_eq_none (l : List (Int × String)) (flag : Int)
    (h : flag ∉ l.map Prod.fst) : lookupMsg l flag = none := by
  induction l with
  | nil => rfl
  | cons p rest ih =>
    obtain ⟨k, msg⟩ := p
    simp only [List.map_cons, List.mem_cons, not_or] at h
    unfold lookupMsg
    rw [if_neg h.1]
    exact ih h.2

lemma boundsLe_cons (a b : Int) (as bs : List Int) :
    boundsLe (a :: as) (b :: bs) = (decide (a ≤ b) && boundsLe as bs) := rfl

lemma boundsLe_eq_false_of_violation (lo hi : List Int) (i : Nat) (lv uv : Int)
    (hl : lo.get? i = some lv) (hh : hi.get? i = some uv) (hlt : uv < lv) :
    boundsLe lo hi = false := by
  induction lo generalizing hi i with
  | nil => simp at hl
  | cons a as ih =>
    cases hi with
    | nil => simp at hh
    | cons b bs =>
      cases i with
      | zero =>
        simp only [List.get?_cons_zero, Option.some.injEq] at hl hh
        subst hl; subst hh
        have hab : ¬ (a ≤ b) := by omega
        simp [boundsLe_cons, hab]
      | succ j =>
        simp only [List.get?_cons_succ] at hl hh
        rw [boundsLe_cons, ih bs j hl hh]
        simp

lemma eval_check_ok (st : QpoasesInterfaceState) (args : QpArgs)
    (hchk : st.inputs_check = false ∨
      checkInputs st.n st.nc args.lbx args.ubx args.lba args.uba = Except.ok ()) :
    (if st.inputs_check then
        checkInputs st.n st.nc args.lbx args.ubx args.lba args.uba
      else Except.ok ()) = Except.ok () := by
  rcases hchk with h | h
  · simp [h]
  · by_cases hic : st.inputs_check <;> simp [hic, h]

lemma eval_eq_evalChecked (st : QpoasesInterfaceState) (co : Bool)
    (args : QpArgs) (req : ResReq) (backend : BackendResult) (res0 : QpRes)
    (hchk : st.inputs_check = false ∨
      checkInputs st.n st.nc args.lbx args.ubx args.lba args.uba = Except.ok ()) :
    QpoasesInterface.eval st co args req backend res0 =
      QpoasesInterface.evalChecked st co args req backend res0 := by
  unfold QpoasesInterface.eval
  rw [eval_check_ok st args hchk]

lemma eval_eq_error (st : QpoasesInterfaceState) (co : Bool)
    (args : QpArgs) (req : ResReq) (backend : BackendResult) (res0 : QpRes)
    (e : String)
    (hic : st.inputs_check = true)
    (herr : checkInputs st.n st.nc args.lbx args.ubx args.lba args.uba =
      Except.error e) :
    QpoasesInterface.eval st co args req backend res0 =
      { called_once := co, invocation := none, err := some e, res := res0 } := by
  unfold QpoasesInterface.eval
  rw [hic]
  simp only [if_true]
  rw [herr]

lemma evalChecked_invocation (st : QpoasesInterfaceState) (co : Bool)
    (args : QpArgs) (req : ResReq) (backend : BackendResult) (res0 : QpRes) :
    (QpoasesInterface.evalChecked st co args req backend res0).invocation =
      some { call := if co = false then
                       (if st.nc = 0 then BackendCall.initB else BackendCall.initS)
                     else
                       (if st.nc = 0 then BackendCall.resetInitB else BackendCall.hotstartS),
             h := casadi_densify args.h (st.n * st.n),
             g := casadi_copy args.g st.n,
             a := casadi_densify args.a (st.n * st.nc),
             lb := casadi_copy args.lbx st.n,
             ub := casadi_copy args.ubx st.n,
             lbA := casadi_copy args.lba st.nc,
             ubA := casadi_copy args.uba st.nc,
             nWSR := st.max_nWSR,
             cputime := if st.max_cputime ≤ 0 then none else some st.max_cputime } := by
  unfold QpoasesInterface.evalChecked
  by_cases hflag : backend.flag ≠ SUCCESSFUL_RETURN ∧ backend.flag ≠ RET_MAX_NWSR_REACHED
  · simp only [if_pos hflag]
  · simp only [if_neg hflag]

lemma evalChecked_called_once (st : QpoasesInterfaceState) (co : Bool)
    (args : QpArgs) (req : ResReq) (backend : BackendResult) (res0 : QpRes) :
    (QpoasesInterface.evalChecked st co args req backend res0).called_once = true := by
  unfold QpoasesInterface.evalChecked
  by_cases hflag : backend.flag ≠ SUCCESSFUL_RETURN ∧ backend.flag ≠ RET_MAX_NWSR_REACHED
  · simp only [if_pos hflag]
  · simp only [if_neg hflag]

lemma evalChecked_hard (st : QpoasesInterfaceState) (co : Bool)
    (args : QpArgs) (req : ResReq) (backend : BackendResult) (res0 : QpRes)
    (h1 : backend.flag ≠ SUCCESSFUL_RETURN)
    (h2 : backend.flag ≠ RET_MAX_NWSR_REACHED) :
    (QpoasesInterface.evalChecked st co args req backend res0).err =
      some ("qpOASES failed: " ++ getErrorMessage backend.flag)
    ∧ (QpoasesInterface.evalChecked st co args req backend res0).res = res0 := by
  unfold QpoasesInterface.evalChecked
  simp only [if_pos (And.intro h1 h2)]
  exact ⟨trivial, trivial⟩

lemma evalChecked_ok (st : QpoasesInterfaceState) (co : Bool)
    (args : QpArgs) (req : ResReq) (backend : BackendResult) (res0 : QpRes)
    (hflag : backend.flag = SUCCESSFUL_RETURN ∨ backend.flag = RET_MAX_NWSR_REACHED) :
    (QpoasesInterface.evalChecked st co args req backend res0).err = none
    ∧ (QpoasesInterface.evalChecked st co args req backend res0).res =
      { cost := if req.cost then some backend.objVal else res0.cost
        x := if req.x then some (backend.primal.take st.n) else res0.x
        lam_x := if req.lam_x || req.lam_a then
                   (if req.lam_x then
                     some ((casadi_scal (st.n + st.nc) backend.dual).take st.n)
                   else res0.lam_x)
                 else res0.lam_x
        lam_a := if req.lam_x || req.lam_a then
                   (if req.lam_a then
                     some (((casadi_scal (st.n + st.nc) backend.dual).drop st.n).take st.nc)
                   else res0.lam_a)
                 else res0.lam_a } := by
  have hn : ¬ (backend.flag ≠ SUCCESSFUL_RETURN ∧ backend.flag ≠ RET_MAX_NWSR_REACHED) := by
    rcases hflag with h | h <;> simp [h]
  unfold QpoasesInterface.evalChecked
  simp only [if_neg hn]
  exact ⟨trivial, trivial⟩

/-! ## Claim theorems -/

/-- Claim C1 counterexample: on a Primed bounds-only instance (`n = 1`,
`m = 0`) the subsequent solve does not attempt a warm restart: the backend
is reset and fully cold re-initialized (`QProblemB::reset()` followed by
`init`, lines 256-257; the `hotstart` call is commented out in the
source). -/
theorem qpoases_subsequent_solve_not_warm_cex :
    exSt.n = 1 ∧ exSt.nc = 0
    ∧ (QpoasesInterface.eval exSt true exArgs1 exReqAll exBackendOk exRes0).invocation.map
        BackendInvocation.call = some BackendCall.resetInitB
    ∧ BackendCall.resetInitB.isWarm = false := by decide

/-- Claim C1 (amended): on a Primed instance (called_once already true), a
subsequent solve that passes input checking invokes `SQProblem::hotstart`
(a warm restart) only when `m ≥ 1`; when `m = 0` it resets the backend and
performs a full cold re-initialization.  In both cases the full current
data (not only the changed data) is passed to the backend. -/
theorem qpoases_subsequent_solve_dispatch
    (st : QpoasesInterfaceState) (args : QpArgs) (req : ResReq)
    (backend : BackendResult) (res0 : QpRes)
    (hchk : st.inputs_check = false ∨
      checkInputs st.n st.nc args.lbx args.ubx args.lba args.uba = Except.ok ()) :
    ∃ inv : BackendInvocation,
      (QpoasesInterface.eval st true args req backend res0).invocation = some inv
      ∧ inv.call = (if st.nc = 0 then BackendCall.resetInitB else BackendCall.hotstartS)
      ∧ inv.call.isWarm = decide (st.nc ≠ 0)
      ∧ inv.h = casadi_densify args.h (st.n * st.n)
      ∧ inv.g = casadi_copy args.g st.n
      ∧ inv.lb = casadi_copy args.lbx st.n
      ∧ inv.ub = casadi_copy args.ubx st.n := by
  rw [eval_eq_evalChecked st true args req backend res0 hchk]
  refine ⟨_, evalChecked_invocation st true args req backend res0, ?_, ?_, rfl, rfl, rfl, rfl⟩
  · simp
  · by_cases h : st.nc = 0 <;> simp [h, BackendCall.isWarm]

/-- Witness for the amended C1 theorem at a concrete constrained instance:
the subsequent solve there is a hotstart. -/
theorem qpoases_subsequent_solve_dispatch_witness :
    ∃ inv : BackendInvocation,
      (QpoasesInterface.eval exStNc1 true exArgsNc1 exReqAll exBackendOkNc1 exRes0).invocation
          = some inv
      ∧ inv.call = (if exStNc1.nc = 0 then BackendCall.resetInitB else BackendCall.hotstartS)
      ∧ inv.call.isWarm = decide (exStNc1.nc ≠ 0)
      ∧ inv.h = casadi_densify exArgsNc1.h (exStNc1.n * exStNc1.n)
      ∧ inv.g = casadi_copy exArgsNc1.g exStNc1.n
      ∧ inv.lb = casadi_copy exArgsNc1.lbx exStNc1.n
      ∧ inv.ub = casadi_copy exArgsNc1.ubx exStNc1.n :=
  qpoases_subsequent_solve_dispatch exStNc1 exArgsNc1 exReqAll exBackendOkNc1 exRes0
    (Or.inr rfl)

/-- Claim C2 counterexample: the iteration budget the backend receives is
not a per-call solve argument.  Two instances built from the same shape but
different `nWSR` option values pass different budgets for identical call
data, while the same instance passes the same budget for different call
data; the call's argument record `QpArgs` carries only problem data. -/
theorem qpoases_budget_per_instance_cex :
    QpoasesInterface.init 1 0 true (some 7) none = some exSt7
    ∧ QpoasesInterface.init 1 0 true (some 9) none = some exSt9
    ∧ exArgs1 ≠ exArgs2
    ∧ (QpoasesInterface.eval exSt7 false exArgs1 exReqAll exBackendOk exRes0).invocation.map
        BackendInvocation.nWSR = some 7
    ∧ (QpoasesInterface.eval exSt7 false exArgs2 exReqAll exBackendOk exRes0).invocation.map
        BackendInvocation.nWSR = some 7
    ∧ (QpoasesInterface.eval exSt9 false exArgs1 exReqAll exBackendOk exRes0).invocation.map
        BackendInvocation.nWSR = some 9 := by decide

/-- Claim C2 (amended): the budgets that bound a solve call's work are the
instance fields `max_nWSR_` and `max_cputime_`, resolved once from the
`nWSR` and `CPUtime` options at `init`; every solve call on the instance
passes exactly these to the backend, independent of the call's data, so
running under a different budget requires re-initializing the instance. -/
theorem qpoases_budget_from_init
    (st : QpoasesInterfaceState) (co : Bool) (args : QpArgs) (req : ResReq)
    (backend : BackendResult) (res0 : QpRes)
    (hchk : st.inputs_check = false ∨
      checkInputs st.n st.nc args.lbx args.ubx args.lba args.uba = Except.ok ()) :
    ∃ inv : BackendInvocation,
      (QpoasesInterface.eval st co args req backend res0).invocation = some inv
      ∧ inv.nWSR = st.max_nWSR
      ∧ inv.cputime = (if st.max_cputime ≤ 0 then none else some st.max_cputime) := by
  rw [eval_eq_evalChecked st co args req backend res0 hchk]
  exact ⟨_, evalChecked_invocation st co args req backend res0, rfl, rfl⟩

/-- Witness for the amended C2 theorem. -/
theorem qpoases_budget_from_init_witness :
    ∃ inv : BackendInvocation,
      (QpoasesInterface.eval exSt7 false exArgs1 exReqAll exBackendOk exRes0).invocation
          = some inv
      ∧ inv.nWSR = exSt7.max_nWSR
      ∧ inv.cputime = (if exSt7.max_cputime ≤ 0 then none else some exSt7.max_cputime) :=
  qpoases_budget_from_init exSt7 false exArgs1 exReqAll exBackendOk exRes0
    (Or.inr rfl)

/-- Claim C3 counterexample: the bound-order check runs only when the
`inputs_check_` option is on (line 216).  With it off, a solve whose
variable bounds satisfy `lbx[0] = 5 > 0 = ubx[0]` invokes the backend and
raises no ConfigurationError. -/
theorem qpoases_bound_check_gated_cex :
    (casadi_copy exArgsBad.lbx exStNoCheck.n).get? 0 = some 5
    ∧ (casadi_copy exArgsBad.ubx exStNoCheck.n).get? 0 = some 0
    ∧ ((0 : Int) < 5)
    ∧ (QpoasesInterface.eval exStNoCheck false exArgsBad exReqAll exBackendOk exRes0).invocation.isSome
        = true
    ∧ (QpoasesInterface.eval exStNoCheck false exArgsBad exReqAll exBackendOk exRes0).err
        = none := by decide

/-- Claim C3 (amended): when the `inputs_check_` option is on, a solve call
whose materialized bounds contain an index with lower > upper (on the
variable or the constraint side) yields the ConfigurationError before any
backend call: the backend is not invoked and the output slots are left
untouched. -/
theorem qpoases_bound_check_when_enabled
    (st : QpoasesInterfaceState) (co : Bool) (args : QpArgs) (req : ResReq)
    (backend : BackendResult) (res0 : QpRes)
    (hic : st.inputs_check = true)
    (hviol :
      (∃ i lv uv, (casadi_copy args.lbx st.n).get? i = some lv
        ∧ (casadi_copy args.ubx st.n).get? i = some uv ∧ uv < lv)
      ∨ (∃ i lv uv, (casadi_copy args.lba st.nc).get? i = some lv
        ∧ (casadi_copy args.uba st.nc).get? i = some uv ∧ uv < lv)) :
    (QpoasesInterface.eval st co args req backend res0).err
        = some "ConfigurationError: lower bound exceeds upper bound"
    ∧ (QpoasesInterface.eval st co args req backend res0).invocation = none
    ∧ (QpoasesInterface.eval st co args req backend res0).res = res0 := by
  have herr : checkInputs st.n st.nc args.lbx args.ubx args.lba args.uba =
      Except.error "ConfigurationError: lower bound exceeds upper bound" := by
    unfold checkInputs
    rcases hviol with ⟨i, lv, uv, hl, hu, hlt⟩ | ⟨i, lv, uv, hl, hu, hlt⟩
    · rw [boundsLe_eq_false_of_violation _ _ i lv uv hl hu hlt]
      simp
    · rw [boundsLe_eq_false_of_violation _ _ i lv uv hl hu hlt]
      simp
  rw [eval_eq_error st co args req backend res0 _ hic herr]
  exact ⟨rfl, rfl, rfl⟩

/-- Witness for the amended C3 theorem at the concrete malformed input. -/
theorem qpoases_bound_check_when_enabled_witness :
    (QpoasesInterface.eval exSt false exArgsBad exReqAll exBackendOk exRes0).err
        = some "ConfigurationError: lower bound exceeds upper bound"
    ∧ (QpoasesInterface.eval exSt false exArgsBad exReqAll exBackendOk exRes0).invocation = none
    ∧ (QpoasesInterface.eval exSt false exArgsBad exReqAll exBackendOk exRes0).res = exRes0 :=
  qpoases_bound_check_when_enabled exSt false exArgsBad exReqAll exBackendOk exRes0 rfl
    (Or.inl ⟨0, 5, 0, by decide, by decide, by decide⟩)

/-- Claim C4: freshly initialized memory has `called_once = false`; the
first solve call (that passes input validation) performs a cold backend
initialization (`init`, never a warm restart) for both backend variants
(`QProblemB` when `m = 0`, `SQProblem` otherwise), and sets `called_once`
to true; once true, every further solve leaves it true. -/
theorem qpoases_first_solve_cold_init :
    (∀ m : QpoasesMemory, (init_memory m).called_once = false)
    ∧ (∀ (st : QpoasesInterfaceState) (args : QpArgs) (req : ResReq)
        (backend : BackendResult) (res0 : QpRes),
        (st.inputs_check = false ∨
          checkInputs st.n st.nc args.lbx args.ubx args.lba args.uba = Except.ok ()) →
        ∃ inv : BackendInvocation,
          (QpoasesInterface.eval st false args req backend res0).invocation = some inv
          ∧ inv.call = (if st.nc = 0 then BackendCall.initB else BackendCall.initS)
          ∧ inv.call.isWarm = false
          ∧ (QpoasesInterface.eval st false args req backend res0).called_once = true)
    ∧ (∀ (st : QpoasesInterfaceState) (args : QpArgs) (req : ResReq)
        (backend : BackendResult) (res0 : QpRes),
        (QpoasesInterface.eval st true args req backend res0).called_once = true) := by
  refine ⟨fun _ => rfl, ?_, ?_⟩
  · intro st args req backend res0 hchk
    rw [eval_eq_evalChecked st false args req backend res0 hchk]
    refine ⟨_, evalChecked_invocation st false args req backend res0, ?_, ?_,
      evalChecked_called_once st false args req backend res0⟩
    · simp
    · by_cases h : st.nc = 0 <;> simp [h, BackendCall.isWarm]
  · intro st args req backend res0
    unfold QpoasesInterface.eval
    cases hc : (if st.inputs_check then
        checkInputs st.n st.nc args.lbx args.ubx args.lba args.uba
      else Except.ok ()) with
    | error e => rfl
    | ok u => exact evalChecked_called_once st true args req backend res0

/-- Witness for C4 at a concrete first solve. -/
theorem qpoases_first_solve_cold_init_witness :
    (init_memory ⟨true⟩).called_once = false
    ∧ (∃ inv : BackendInvocation,
        (QpoasesInterface.eval exSt false exArgs1 exReqAll exBackendOk exRes0).invocation
            = some inv
        ∧ inv.call = (if exSt.nc = 0 then BackendCall.initB else BackendCall.initS)
        ∧ inv.call.isWarm = false
        ∧ (QpoasesInterface.eval exSt false exArgs1 exReqAll exBackendOk exRes0).called_once
            = true)
    ∧ (QpoasesInterface.eval exSt true exArgs1 exReqAll exBackendOk exRes0).called_once
        = true :=
  ⟨qpoases_first_solve_cold_init.1 ⟨true⟩,
   qpoases_first_solve_cold_init.2.1 exSt exArgs1 exReqAll exBackendOk exRes0
     (Or.inr rfl),
   qpoases_first_solve_cold_init.2.2 exSt exArgs1 exReqAll exBackendOk exRes0⟩

/-- Claim C5: the error mapper is total.  Every integer flag is mapped
either to its handled message from the switch table or to the default
message, and every flag outside the handled table gets the default message,
which embeds the raw numeric code. -/
theorem getErrorMessage_total (flag : Int) :
    ((flag, getErrorMessage flag) ∈ retMessages
      ∨ getErrorMessage flag =
          "Unknown error flag: " ++ toString flag ++ ". Consult qpOASES documentation.")
    ∧ (flag ∉ retMessages.map Prod.fst →
        getErrorMessage flag =
          "Unknown error flag: " ++ toString flag ++ ". Consult qpOASES documentation.") := by
  constructor
  · cases h : lookupMsg retMessages flag with
    | none =>
      right
      unfold getErrorMessage
      rw [h]
    | some s =>
      left
      unfold getErrorMessage
      rw [h]
      exact lookupMsg_mem _ _ _ h
  · intro hnot
    unfold getErrorMessage
    rw [lookupMsg_eq_none _ _ hnot]

/-- Witness for C5 at a deliberately unrecognized flag. -/
theorem getErrorMessage_total_witness :
    ((999 : Int) ∉ retMessages.map Prod.fst)
    ∧ getErrorMessage 999 =
        "Unknown error flag: " ++ toString (999 : Int) ++ ". Consult qpOASES documentation." :=
  ⟨by decide, (getErrorMessage_total 999).2 (by decide)⟩

/-- Claim C6: a solve whose backend run ends with `RET_MAX_NWSR_REACHED` is
terminal but non-fatal: no exception is raised and the best available
iterate (cost, primal, dual) is written to every requested output slot,
while every other non-success flag raises. -/
theorem qpoases_max_nwsr_nonfatal
    (st : QpoasesInterfaceState) (co : Bool) (args : QpArgs) (req : ResReq)
    (backend : BackendResult) (res0 : QpRes)
    (hchk : st.inputs_check = false ∨
      checkInputs st.n st.nc args.lbx args.ubx args.lba args.uba = Except.ok ())
    (hflag : backend.flag = RET_MAX_NWSR_REACHED) :
    (QpoasesInterface.eval st co args req backend res0).err = none
    ∧ (req.cost = true →
        (QpoasesInterface.eval st co args req backend res0).res.cost = some backend.objVal)
    ∧ (req.x = true →
        (QpoasesInterface.eval st co args req backend res0).res.x =
          some (backend.primal.take st.n))
    ∧ (req.lam_x = true →
        (QpoasesInterface.eval st co args req backend res0).res.lam_x =
          some ((casadi_scal (st.n + st.nc) backend.dual).take st.n))
    ∧ (req.lam_a = true →
        (QpoasesInterface.eval st co args req backend res0).res.lam_a =
          some (((casadi_scal (st.n + st.nc) backend.dual).drop st.n).take st.nc))
    ∧ (∀ backend2 : BackendResult, backend2.flag ≠ SUCCESSFUL_RETURN →
        backend2.flag ≠ RET_MAX_NWSR_REACHED →
        (QpoasesInterface.eval st co args req backend2 res0).err ≠ none) := by
  rw [eval_eq_evalChecked st co args req backend res0 hchk]
  obtain ⟨he, hr⟩ := evalChecked_ok st co args req backend res0 (Or.inr hflag)
  refine ⟨he, ?_, ?_, ?_, ?_, ?_⟩
  · intro h; rw [hr]; simp [h]
  · intro h; rw [hr]; simp [h]
  · intro h; rw [hr]; simp [h]
  · intro h; rw [hr]; simp [h]
  · intro backend2 h1 h2
    rw [eval_eq_evalChecked st co args req backend2 res0 hchk]
    rw [(evalChecked_hard st co args req backend2 res0 h1 h2).1]
    simp

/-- Witness for C6 at a concrete budget-exhausted run. -/
theorem qpoases_max_nwsr_nonfatal_witness :
    (QpoasesInterface.eval exSt false exArgs1 exReqAll exBackendMax exRes0).err = none
    ∧ (QpoasesInterface.eval exSt false exArgs1 exReqAll exBackendMax exRes0).res.cost
        = some (-3)
    ∧ (QpoasesInterface.eval exSt false exArgs1 exReqAll exBackendMax exRes0).res.x
        = some [1]
    ∧ (QpoasesInterface.eval exSt false exArgs1 exReqAll exBackendMax exRes0).err ≠ some "x" := by
  have h := qpoases_max_nwsr_nonfatal exSt false exArgs1 exReqAll exBackendMax exRes0
    (Or.inr rfl) rfl
  refine ⟨h.1, ?_, ?_, ?_⟩
  · exact h.2.1 rfl
  · exact h.2.2.1 rfl
  · rw [h.1]; simp

/-- Claim C7: a hard backend failure (any flag other than
`SUCCESSFUL_RETURN` and `RET_MAX_NWSR_REACHED`) raises the classified
exception and leaves every caller-visible output slot untouched. -/
theorem qpoases_hard_failure_untouched
    (st : QpoasesInterfaceState) (co : Bool) (args : QpArgs) (req : ResReq)
    (backend : BackendResult) (res0 : QpRes)
    (hchk : st.inputs_check = false ∨
      checkInputs st.n st.nc args.lbx args.ubx args.lba args.uba = Except.ok ())
    (h1 : backend.flag ≠ SUCCESSFUL_RETURN)
    (h2 : backend.flag ≠ RET_MAX_NWSR_REACHED) :
    (QpoasesInterface.eval st co args req backend res0).err =
      some ("qpOASES failed: " ++ getErrorMessage backend.flag)
    ∧ (QpoasesInterface.eval st co args req backend res0).res = res0 := by
  rw [eval_eq_evalChecked st co args req backend res0 hchk]
  exact evalChecked_hard st co args req backend res0 h1 h2

/-- Witness for C7 at a concrete infeasible-QP failure. -/
theorem qpoases_hard_failure_untouched_witness :
    (QpoasesInterface.eval exSt false exArgs1 exReqAll exBackendFail exRes0).err =
      some ("qpOASES failed: " ++ getErrorMessage exBackendFail.flag)
    ∧ (QpoasesInterface.eval exSt false exArgs1 exReqAll exBackendFail exRes0).res = exRes0 :=
  qpoases_hard_failure_untouched exSt false exArgs1 exReqAll exBackendFail exRes0
    (Or.inr rfl) (by decide) (by decide)

/-- Claim C8: the interface allocates exactly
`n*n + n*m + 4n + 3m` doubles of scratch (the slots for H, A, g, lbx, ubx,
lba, uba and the dual vector) as a pure function of the dimensions; each
solve carves slots summing to at most this preallocation (so it never
allocates at call time), and equal dimensions give equal sizes. -/
theorem qpoases_workspace_size :
    (∀ n m : Nat, workspaceSize n m = n * n + n * m + 4 * n + 3 * m)
    ∧ (∀ (n m : Nat) (wantDual : Bool),
        (evalCarveSizes n m wantDual).sum ≤ workspaceSize n m)
    ∧ (∀ n1 m1 n2 m2 : Nat, n1 = n2 → m1 = m2 →
        workspaceSize n1 m1 = workspaceSize n2 m2) := by
  refine ⟨?_, ?_, ?_⟩
  · intro n m
    simp [workspaceSize, alloc_w_sizes]
    ring
  · intro n m wantDual
    cases wantDual <;> simp [workspaceSize, alloc_w_sizes, evalCarveSizes]
  · intro n1 m1 n2 m2 h1 h2
    rw [h1, h2]

/-- Witness for C8 at concrete dimensions. -/
theorem qpoases_workspace_size_witness :
    workspaceSize 3 2 = 3 * 3 + 3 * 2 + 4 * 3 + 3 * 2
    ∧ (evalCarveSizes 3 2 false).sum ≤ workspaceSize 3 2
    ∧ workspaceSize 3 2 = workspaceSize 3 2 :=
  ⟨qpoases_workspace_size.1 3 2, qpoases_workspace_size.2.1 3 2 false,
   qpoases_workspace_size.2.2 3 2 3 2 rfl rfl⟩

/-- Claim C9: when a dual output is requested and the solve reaches the
output stage, the multipliers written are the backend dual solution with
negated sign: `-d[0..n)` into LAM_X and `-d[n..n+m)` into LAM_A, where `d`
is the `getDualSolution` vector (of length `n + m`). -/
theorem qpoases_dual_sign_negated
    (st : QpoasesInterfaceState) (co : Bool) (args : QpArgs) (req : ResReq)
    (backend : BackendResult) (res0 : QpRes)
    (hchk : st.inputs_check = false ∨
      checkInputs st.n st.nc args.lbx args.ubx args.lba args.uba = Except.ok ())
    (hflag : backend.flag = SUCCESSFUL_RETURN ∨ backend.flag = RET_MAX_NWSR_REACHED)
    (hlen : backend.dual.length = st.n + st.nc) :
    (req.lam_x = true →
      (QpoasesInterface.eval st co args req backend res0).res.lam_x =
        some ((backend.dual.take st.n).map (fun v => -v)))
    ∧ (req.lam_a = true →
      (QpoasesInterface.eval st co args req backend res0).res.lam_a =
        some ((backend.dual.drop st.n).map (fun v => -v))) := by
  rw [eval_eq_evalChecked st co args req backend res0 hchk]
  obtain ⟨-, hr⟩ := evalChecked_ok st co args req backend res0 hflag
  have hscal : casadi_scal (st.n + st.nc) backend.dual =
      backend.dual.map (fun v => -v) := by
    unfold casadi_scal
    rw [List.take_of_length_le (le_of_eq hlen), List.drop_eq_nil_of_le (le_of_eq hlen)]
    simp
  constructor
  · intro h
    rw [hr]
    simp only [h, Bool.true_or, if_true, hscal]
    rw [List.map_take]
  · intro h
    rw [hr]
    simp only [h, Bool.or_true, if_true, hscal]
    have hdrop : (backend.dual.map (fun v : Int => -v)).drop st.n =
        (backend.dual.drop st.n).map (fun v => -v) := (List.map_drop _ _ _).symm
    rw [hdrop]
    rw [List.take_of_length_le]
    simp [hlen]

/-- Witness for C9 at a concrete constrained solve. -/
theorem qpoases_dual_sign_negated_witness :
    (QpoasesInterface.eval exStNc1 false exArgsNc1 exReqAll exBackendOkNc1 exRes0).res.lam_x
        = some ((exBackendOkNc1.dual.take exStNc1.n).map (fun v => -v))
    ∧ (QpoasesInterface.eval exStNc1 false exArgsNc1 exReqAll exBackendOkNc1 exRes0).res.lam_a
        = some ((exBackendOkNc1.dual.drop exStNc1.n).map (fun v => -v)) := by
  have h := qpoases_dual_sign_negated exStNc1 false exArgsNc1 exReqAll exBackendOkNc1 exRes0
    (Or.inr rfl) (Or.inl rfl) (by decide)
  exact ⟨h.1 rfl, h.2 rfl⟩

/-- Claim C10: the option-enum string conversions are mutually inverse on
their supported domains, and `string_to_PrintLevel` signals an error (here:
`none`) on every string outside its enumerated domain. -/
theorem qpoases_option_conversions_inverse :
    (∀ pl : PrintLevel, pl ≠ PrintLevel.PL_DEBUG_ITER →
      (PrintLevel_to_string pl).bind string_to_PrintLevel = some pl)
    ∧ (∀ b : Bool, BooleanType_to_bool (bool_to_BooleanType b) = b)
    ∧ (∀ s : String, s ∉ ["tabular", "none", "low", "medium", "high"] →
        string_to_PrintLevel s = none) := by
  refine ⟨?_, ?_, ?_⟩
  · intro pl h
    cases pl <;> first | (exact absurd rfl h) | decide
  · intro b
    cases b <;> rfl
  · intro s hs
    simp only [List.mem_cons, List.not_mem_nil, or_false, not_or] at hs
    obtain ⟨h1, h2, h3, h4, h5⟩ := hs
    unfold string_to_PrintLevel
    rw [if_neg h1, if_neg h2, if_neg h3, if_neg h4, if_neg h5]

/-- Witness for C10 at concrete values. -/
theorem qpoases_option_conversions_inverse_witness :
    (PrintLevel_to_string PrintLevel.PL_LOW).bind string_to_PrintLevel
        = some PrintLevel.PL_LOW
    ∧ BooleanType_to_bool (bool_to_BooleanType true) = true
    ∧ string_to_PrintLevel "tab" = none :=
  ⟨qpoases_option_conversions_inverse.1 PrintLevel.PL_LOW (by decide),
   qpoases_option_conversions_inverse.2.1 true,
   qpoases_option_conversions_inverse.2.2 "tab" (by decide)⟩

end casadi
